import Mathlib

/-!
Shallow embedding of the `menubar` crate (macOS menu-bar binding):
`src/macos/menubar.rs` (the `MenuBar` builder) and `src/macos/global.rs`
(the `InitializedApplication` handle with its four global menu slots and
the menu-bar visibility toggle).

The `Menu` and `MenuItem` leaf types and the native AppKit runtime are not
part of the excerpted sources; definitions for them are modelled from the
spec and marked as such in their doc comments.  Everything else is
translated directly from the Rust sources.
-/

mutual

/-- Modelled from the spec: a menu is a hierarchical node with a (possibly
irrelevant) title containing an ordered list of menu items.  The `Menu` type
of `src/macos/menu.rs` is referenced but not defined in the excerpt. -/
inductive Menu : Type where
  | mk : String → List MenuItem → Menu

/-- Modelled from the spec: a menu item may optionally own a submenu.  The
`MenuItem` type of `src/macos/menuitem.rs` is referenced but not defined in
the excerpt; `MenuItem::new_empty` builds an item with empty configuration,
so the only state tracked here is the optional submenu. -/
inductive MenuItem : Type where
  | mk : Option Menu → MenuItem

end

/-- Title projection of a menu. -/
def Menu.title : Menu → String
  | .mk t _ => t

/-- Ordered items of a menu. -/
def Menu.items : Menu → List MenuItem
  | .mk _ xs => xs

/-- Submenu projection of a menu item. -/
def MenuItem.submenu : MenuItem → Option Menu
  | .mk m => m

/-- Modelled from the spec: `Menu::new()` creates an anonymous (untitled)
empty menu. -/
def Menu.new : Menu := .mk "" []

/-- Modelled from the spec: `Menu::new_with_title(title)` creates a titled
empty menu. -/
def Menu.new_with_title (title : String) : Menu := .mk title []

/-- Modelled from the spec: `Menu::add(item)` appends a menu item at the end
of the menu's ordered item list and returns a shared reference to the added
item. -/
def Menu.add (m : Menu) (item : MenuItem) : Menu × MenuItem :=
  (.mk m.title (m.items ++ [item]), item)

/-- Modelled from the spec: `MenuItem::new_empty()` creates a menu item with
empty configuration and no submenu. -/
def MenuItem.new_empty : MenuItem := .mk none

/-- Modelled from the spec: `MenuItem::set_submenu(menu)` stores the given
optional submenu in the item and returns a shared reference to the menu that
was stored (`none` when the submenu was cleared). -/
def MenuItem.set_submenu (_item : MenuItem) (menu : Option Menu) :
    MenuItem × Option Menu :=
  (.mk menu, menu)

/-- `MenuBar` from `src/macos/menubar.rs`: a thin wrapper owning exactly one
root menu (`MenuBar(Id<Menu, Owned>)`). -/
structure MenuBar where
  root : Menu

/-- `MenuBar::into_raw`: consumes the builder, yielding ownership of the
assembled root menu. -/
def MenuBar.into_raw (b : MenuBar) : Menu := b.root

/-- `MenuBar::add_menu`: wraps `menu` in an empty menu item, installs it as
the item's submenu (the source unwraps the option returned by
`set_submenu`; `none` here represents that unwrap diverging), appends the
item to the root menu and returns a shared reference to the submenu. -/
def MenuBar.add_menu (b : MenuBar) (menu : Menu) : Option (MenuBar × Menu) :=
  let item := MenuItem.new_empty
  let p := item.set_submenu (some menu)
  match p.2 with
  | none => none
  | some shared =>
    let q := b.root.add p.1
    some (⟨q.1⟩, shared)

/-- `MenuBar::new(f)`: creates an anonymous root menu, creates one anonymous
child menu, applies the caller-supplied closure `f` to the child, and
installs the child as the root's sole initial item via `add_menu`. -/
def MenuBar.new (f : Menu → Menu) : Option MenuBar :=
  let menu := Menu.new
  let menubar : MenuBar := ⟨menu⟩
  let first := f Menu.new
  (menubar.add_menu first).map Prod.fst

/-- `MenuBar::add(title, f)`: creates a titled child menu, applies the
closure to it, then installs it via `add_menu`, returning the updated bar
and a shared reference to the newly added menu. -/
def MenuBar.add (b : MenuBar) (title : String) (f : Menu → Menu) :
    Option (MenuBar × Menu) :=
  let menu := f (Menu.new_with_title title)
  b.add_menu menu

/-- `MenuBar::global_visible`: `unimplemented!()` in the source; it diverges
for every call, modelled as returning no value. -/
def MenuBar.global_visible : Option Bool := none

/-- `MenuBar::set_global_visible`: `unimplemented!()` in the source; it
diverges for every argument, modelled as returning no value. -/
def MenuBar.set_global_visible (_visible : Bool) : Option Unit := none

/-- `MenuBar::global_height`: `unimplemented!()` in the source; it diverges
for every call, modelled as returning no value. -/
def MenuBar.global_height : Option Float := none

/-- Native `BOOL` (a signed char on macOS), embedded as an integer. -/
abbrev BOOL := Int

/-- Native `NO`. -/
def NO : BOOL := 0

/-- Native `YES`. -/
def YES : BOOL := 1

/-- An autorelease pool scope token (`objc::rc::AutoreleasePool`); it
carries no data in this embedding, it only mirrors the `pool` parameter of
the getter signatures. -/
structure AutoreleasePool where

/-- Modelled from the spec: the state the native AppKit runtime holds on
behalf of the application singleton — the four optionally populated global
menu slots (main, window, services, help), the backing value of the global
`menuBarVisible` flag, and whether the application is in an exclusive
full-screen state.  The Rust `InitializedApplication` type is a zero-sized
handle; all true state lives in the native runtime. -/
structure AppState where
  mainMenu : Option Menu
  windowMenu : Option Menu
  servicesMenu : Option Menu
  helpMenu : Option Menu
  menuBarVisibleFlag : BOOL
  fullScreen : Bool

/-- Modelled from the spec: the native `[NSMenu menuBarVisible]` class
method reads the global visibility flag. -/
def NSMenu.menuBarVisible (s : AppState) : BOOL :=
  s.menuBarVisibleFlag

/-- Modelled from the spec: the native `[NSMenu setMenuBarVisible:]` class
method stores the flag, except that it may silently no-op while the
application is in an exclusive full-screen state. -/
def NSMenu.setMenuBarVisible (s : AppState) (visible : BOOL) : AppState :=
  if s.fullScreen then s else { s with menuBarVisibleFlag := visible }

/-- `InitializedApplication::menubar(pool)`: reads the main-menu slot
(native `mainMenu`, modelled from the spec as reading the slot). -/
def InitializedApplication.menubar (s : AppState) (_pool : AutoreleasePool) :
    Option Menu :=
  s.mainMenu

/-- `InitializedApplication::set_menubar(menubar)`: consumes the builder via
`into_raw`, installs the root menu as the main menu (native `setMainMenu:`,
modelled from the spec as storing into the slot) and hands a shared `Id` to
that same menu back to the caller. -/
def InitializedApplication.set_menubar (s : AppState) (menubar : MenuBar) :
    AppState × Menu :=
  let menu := menubar.into_raw
  ({ s with mainMenu := some menu }, menu)

/-- `InitializedApplication::window_menu(pool)`: reads the window-menu slot
(native `windowsMenu`, modelled from the spec as reading the slot). -/
def InitializedApplication.window_menu (s : AppState)
    (_pool : AutoreleasePool) : Option Menu :=
  s.windowMenu

/-- `InitializedApplication::set_window_menu(menu)`: stores the menu in the
window-menu slot (native `setWindowsMenu:`, modelled from the spec). -/
def InitializedApplication.set_window_menu (s : AppState) (menu : Menu) :
    AppState :=
  { s with windowMenu := some menu }

/-- `InitializedApplication::services_menu(pool)`: reads the services-menu
slot (native `servicesMenu`, modelled from the spec as reading the slot). -/
def InitializedApplication.services_menu (s : AppState)
    (_pool : AutoreleasePool) : Option Menu :=
  s.servicesMenu

/-- `InitializedApplication::set_services_menu(menu)`: stores the menu in
the services-menu slot (native `setServicesMenu:`, modelled from the
spec). -/
def InitializedApplication.set_services_menu (s : AppState) (menu : Menu) :
    AppState :=
  { s with servicesMenu := some menu }

/-- `InitializedApplication::help_menu(pool)`: reads the help-menu slot
(native `helpMenu`, modelled from the spec as reading the slot). -/
def InitializedApplication.help_menu (s : AppState)
    (_pool : AutoreleasePool) : Option Menu :=
  s.helpMenu

/-- `InitializedApplication::set_help_menu(menu)`: stores the optional menu
in the help-menu slot (native `setHelpMenu:`, modelled from the spec;
`none` means "let the runtime auto-detect"). -/
def InitializedApplication.set_help_menu (s : AppState)
    (menu : Option Menu) : AppState :=
  { s with helpMenu := menu }

/-- `InitializedApplication::menubar_visible()`: reads the native `BOOL`
via `[NSMenu menuBarVisible]` and decodes it with `visible != NO`. -/
def InitializedApplication.menubar_visible (s : AppState) : Bool :=
  let visible : BOOL := NSMenu.menuBarVisible s
  visible != NO

/-- `InitializedApplication::set_menubar_visible(visible)`: encodes `true`
as `YES` and `false` as `NO`, then calls `[NSMenu setMenuBarVisible:]`. -/
def InitializedApplication.set_menubar_visible (s : AppState)
    (visible : Bool) : AppState :=
  let visible : BOOL := if visible then YES else NO
  NSMenu.setMenuBarVisible s visible

/-- A concrete application state: all slots empty, flag `NO`, windowed. -/
def emptyState : AppState := ⟨none, none, none, none, NO, false⟩

/-- A concrete application state whose visibility flag holds the
non-canonical `BOOL` value `2`. -/
def twoState : AppState := { emptyState with menuBarVisibleFlag := 2 }

/-- C1: `MenuBar::new(f)` creates an anonymous root menu, creates exactly
one anonymous child menu, applies the caller-supplied closure `f` to that
child, and installs the child as the root's sole initial item; for every
closure that appends three items to the child, the root has exactly one
child menu holding exactly those three items in insertion order. -/
theorem MenuBar.new_single_child (f : Menu → Menu) :
    MenuBar.new f = some ⟨Menu.mk "" [MenuItem.mk (some (f Menu.new))]⟩ ∧
    ∀ i1 i2 i3 : MenuItem,
      MenuBar.new (fun m => (((m.add i1).1.add i2).1.add i3).1) =
        some ⟨Menu.mk "" [MenuItem.mk (some (Menu.mk "" [i1, i2, i3]))]⟩ :=
  ⟨rfl, fun _ _ _ => rfl⟩

/-- C2: `MenuBar::add(title, f)` creates a child menu titled `title`,
applies `f` to it, wraps the result in an empty-configuration menu item,
appends that item to the root menu, and returns a shared reference equal to
the very menu installed as the appended item's submenu. -/
theorem MenuBar.add_appends_titled_menu (b : MenuBar) (title : String)
    (f : Menu → Menu) :
    b.add title f =
      some (⟨Menu.mk b.root.title
               (b.root.items ++
                 [MenuItem.mk (some (f (Menu.new_with_title title)))])⟩,
            f (Menu.new_with_title title)) :=
  rfl

/-- C8: the builder-level global visibility and height queries are
unimplemented placeholders: every call diverges and never produces a
value. -/
theorem MenuBar.globals_unimplemented :
    MenuBar.global_visible = none ∧
    (∀ v : Bool, MenuBar.set_global_visible v = none) ∧
    MenuBar.global_height = none :=
  ⟨rfl, fun _ => rfl, rfl⟩

/-- C9: `set_submenu(Some(menu))` on a freshly created empty menu item
always returns `Some`, so the `.unwrap()` in `MenuBar::add_menu` never
diverges; consequently `MenuBar::new` and `MenuBar::add` always succeed. -/
theorem MenuBar.add_menu_total (b : MenuBar) (menu : Menu) :
    (MenuItem.new_empty.set_submenu (some menu)).2 = some menu ∧
    (b.add_menu menu).isSome = true ∧
    (∀ f : Menu → Menu, (MenuBar.new f).isSome = true) ∧
    (∀ (title : String) (f : Menu → Menu),
      (b.add title f).isSome = true) :=
  ⟨rfl, rfl, fun _ => rfl, fun _ _ => rfl⟩

/-- C3: the services-menu slot holds the most recently assigned menu: after
`set_services_menu(m1)` the getter returns `m1`; after a subsequent
`set_services_menu(m2)` it returns `m2`, and no longer `m1` whenever the two
menus differ. -/
theorem InitializedApplication.services_menu_most_recent (s : AppState)
    (m1 m2 : Menu) (pool : AutoreleasePool) :
    InitializedApplication.services_menu
        (InitializedApplication.set_services_menu s m1) pool = some m1 ∧
    InitializedApplication.services_menu
        (InitializedApplication.set_services_menu
          (InitializedApplication.set_services_menu s m1) m2) pool = some m2 ∧
    (m1 ≠ m2 →
      InitializedApplication.services_menu
        (InitializedApplication.set_services_menu
          (InitializedApplication.set_services_menu s m1) m2) pool ≠
        some m1) := by
  refine ⟨rfl, rfl, fun h hc => h ?_⟩
  exact (Option.some.inj hc).symm

/-- Witness for C3 at concrete distinct menus. -/
theorem InitializedApplication.services_menu_most_recent_witness :
    InitializedApplication.services_menu
        (InitializedApplication.set_services_menu
          (InitializedApplication.set_services_menu emptyState
            (Menu.mk "first" [])) (Menu.mk "second" [])) ⟨⟩ ≠
      some (Menu.mk "first" []) :=
  (InitializedApplication.services_menu_most_recent emptyState
      (Menu.mk "first" []) (Menu.mk "second" []) ⟨⟩).2.2
    (by simp)

/-- C4: `set_menubar(b)` installs `b`'s root menu as the main menu and
returns a shared handle to that very menu; the main-menu slot is
necessarily populated afterwards (the setter accepts only a whole
`MenuBar`, so no exposed operation clears the main menu to empty). -/
theorem InitializedApplication.set_menubar_installs_root (s : AppState)
    (b : MenuBar) (pool : AutoreleasePool) :
    (InitializedApplication.set_menubar s b).2 = b.into_raw ∧
    InitializedApplication.menubar
        (InitializedApplication.set_menubar s b).1 pool =
      some (InitializedApplication.set_menubar s b).2 ∧
    (InitializedApplication.menubar
        (InitializedApplication.set_menubar s b).1 pool).isSome = true :=
  ⟨rfl, rfl, rfl⟩

/-- C5: outside exclusive full-screen, `set_menubar_visible(v)` followed by
`menubar_visible()` returns `v`; in particular `false` round-trips to
`false`. -/
theorem InitializedApplication.menubar_visible_roundtrip (s : AppState)
    (v : Bool) (h : s.fullScreen = false) :
    InitializedApplication.menubar_visible
      (InitializedApplication.set_menubar_visible s v) = v := by
  cases v <;>
    simp [InitializedApplication.menubar_visible,
      InitializedApplication.set_menubar_visible, NSMenu.setMenuBarVisible,
      NSMenu.menuBarVisible, h, YES, NO]

/-- Witness for C5: hiding the menu bar from the empty windowed state and
querying reports it hidden. -/
theorem InitializedApplication.menubar_visible_roundtrip_witness :
    InitializedApplication.menubar_visible
      (InitializedApplication.set_menubar_visible emptyState false) = false :=
  InitializedApplication.menubar_visible_roundtrip emptyState false rfl

/-- C6: the four global menu slots are independently settable: setting any
one slot leaves the other three slots unchanged as observed through their
corresponding get accessors. -/
theorem InitializedApplication.slots_independent (s : AppState) (m : Menu)
    (om : Option Menu) (b : MenuBar) (pool : AutoreleasePool) :
    (InitializedApplication.window_menu
        (InitializedApplication.set_services_menu s m) pool =
        InitializedApplication.window_menu s pool ∧
      InitializedApplication.menubar
        (InitializedApplication.set_services_menu s m) pool =
        InitializedApplication.menubar s pool ∧
      InitializedApplication.help_menu
        (InitializedApplication.set_services_menu s m) pool =
        InitializedApplication.help_menu s pool) ∧
    (InitializedApplication.services_menu
        (InitializedApplication.set_window_menu s m) pool =
        InitializedApplication.services_menu s pool ∧
      InitializedApplication.menubar
        (InitializedApplication.set_window_menu s m) pool =
        InitializedApplication.menubar s pool ∧
      InitializedApplication.help_menu
        (InitializedApplication.set_window_menu s m) pool =
        InitializedApplication.help_menu s pool) ∧
    (InitializedApplication.services_menu
        (InitializedApplication.set_help_menu s om) pool =
        InitializedApplication.services_menu s pool ∧
      InitializedApplication.menubar
        (InitializedApplication.set_help_menu s om) pool =
        InitializedApplication.menubar s pool ∧
      InitializedApplication.window_menu
        (InitializedApplication.set_help_menu s om) pool =
        InitializedApplication.window_menu s pool) ∧
    (InitializedApplication.services_menu
        (InitializedApplication.set_menubar s b).1 pool =
        InitializedApplication.services_menu s pool ∧
      InitializedApplication.window_menu
        (InitializedApplication.set_menubar s b).1 pool =
        InitializedApplication.window_menu s pool ∧
      InitializedApplication.help_menu
        (InitializedApplication.set_menubar s b).1 pool =
        InitializedApplication.help_menu s pool) :=
  ⟨⟨rfl, rfl, rfl⟩, ⟨rfl, rfl, rfl⟩, ⟨rfl, rfl, rfl⟩, ⟨rfl, rfl, rfl⟩⟩

/-- C10: `menubar_visible` decodes the native `BOOL` by comparing against
`NO`: it returns `true` for every flag value other than `NO` (not only for
`YES`, witnessed at the non-canonical value `2`) and `false` exactly at
`NO`; `set_menubar_visible` encodes `true` as `YES` and `false` as `NO`;
on the two canonical `BOOL` values the pair are mutually inverse. -/
theorem InitializedApplication.menubar_visible_decode_encode (s : AppState)
    (v : Bool) :
    (s.menuBarVisibleFlag ≠ NO →
      InitializedApplication.menubar_visible s = true) ∧
    (s.menuBarVisibleFlag = NO →
      InitializedApplication.menubar_visible s = false) ∧
    (s.fullScreen = false →
      (InitializedApplication.set_menubar_visible s v).menuBarVisibleFlag =
        if v then YES else NO) ∧
    InitializedApplication.menubar_visible
      { s with menuBarVisibleFlag := YES } = true ∧
    InitializedApplication.menubar_visible
      { s with menuBarVisibleFlag := NO } = false ∧
    InitializedApplication.menubar_visible
      { s with menuBarVisibleFlag := 2 } = true := by
  refine ⟨fun h => ?_, fun h => ?_, fun h => ?_, ?_, ?_, ?_⟩ <;>
    simp_all [InitializedApplication.menubar_visible,
      InitializedApplication.set_menubar_visible, NSMenu.menuBarVisible,
      NSMenu.setMenuBarVisible, YES, NO]

/-- Witness for C10: the non-canonical flag value `2` decodes to `true`,
and encoding `true` from the windowed empty state stores `YES`. -/
theorem InitializedApplication.menubar_visible_decode_encode_witness :
    InitializedApplication.menubar_visible twoState = true ∧
    (InitializedApplication.set_menubar_visible emptyState
        true).menuBarVisibleFlag = YES :=
  ⟨(InitializedApplication.menubar_visible_decode_encode twoState true).1
      (by decide),
    (InitializedApplication.menubar_visible_decode_encode emptyState
        true).2.2.1 rfl⟩
